import Mathlib

set_option maxHeartbeats 1000000

/-!
Shallow embedding of the surface-lifecycle code of `src/bad_render.rs` and
`src/render.rs` (two drafts of the same webview-surface subsystem), together
with theorems settling the specification claims about it.

The external wgpu / bevy effects (native surface creation,
`surface.get_current_texture()`, `render_device.configure_surface`,
adapter enumeration, the `target_os` compile-time switch) are modelled as
explicit inputs (oracles) and instrumented outputs (lists of applied
configurations, counts of created surfaces and of acquisition calls), so
that the control flow of the source is reproduced exactly.
-/

/-- Texture formats relevant to the surface code: the two 8-bit gamma
corrected formats named in `bad_render.rs` lines 104-105, their linear
counterparts, and a representative format without an sRGB variant. -/
inductive TextureFormat
  | Rgba8Unorm
  | Rgba8UnormSrgb
  | Bgra8Unorm
  | Bgra8UnormSrgb
  | Rgba16Float
  deriving DecidableEq, Repr

/-- Embedding of wgpu `TextureFormat::is_srgb`: true exactly for the
gamma-corrected (sRGB) formats. -/
def TextureFormat.is_srgb : TextureFormat → Bool
  | .Rgba8UnormSrgb => true
  | .Bgra8UnormSrgb => true
  | _ => false

/-- Embedding of wgpu `TextureFormat::add_srgb_suffix`: the sRGB variant of
a linear format when one exists, the format itself otherwise. -/
def TextureFormat.add_srgb_suffix : TextureFormat → TextureFormat
  | .Rgba8Unorm => .Rgba8UnormSrgb
  | .Bgra8Unorm => .Bgra8UnormSrgb
  | f => f

/-- Present modes of `bevy::window::PresentMode` matched in
`bad_render.rs` lines 116-122. -/
inductive PresentMode
  | Fifo
  | Mailbox
  | Immediate
  | AutoVsync
  | AutoNoVsync
  deriving DecidableEq, Repr

/-- Present modes of `wgpu::PresentMode`, the target of the mapping. -/
inductive WgpuPresentMode
  | Fifo
  | Mailbox
  | Immediate
  | AutoVsync
  | AutoNoVsync
  deriving DecidableEq, Repr

/-- The `match window.present_mode` mapping of `bad_render.rs` lines 116-122. -/
def map_present_mode : PresentMode → WgpuPresentMode
  | .Fifo => .Fifo
  | .Mailbox => .Mailbox
  | .Immediate => .Immediate
  | .AutoVsync => .AutoVsync
  | .AutoNoVsync => .AutoNoVsync

/-- Alpha compositing modes of `bevy::window::CompositeAlphaMode` matched in
`bad_render.rs` lines 123-129. -/
inductive CompositeAlphaMode
  | Auto
  | Opaque
  | PreMultiplied
  | PostMultiplied
  | Inherit
  deriving DecidableEq, Repr

/-- Alpha compositing modes of `wgpu::CompositeAlphaMode`. -/
inductive WgpuCompositeAlphaMode
  | Auto
  | Opaque
  | PreMultiplied
  | PostMultiplied
  | Inherit
  deriving DecidableEq, Repr

/-- The `match window.alpha_mode` mapping of `bad_render.rs` lines 123-129. -/
def map_alpha_mode : CompositeAlphaMode → WgpuCompositeAlphaMode
  | .Auto => .Auto
  | .Opaque => .Opaque
  | .PreMultiplied => .PreMultiplied
  | .PostMultiplied => .PostMultiplied
  | .Inherit => .Inherit

/-- The `WindowData` struct shared by both source files: the per-frame window
snapshot copied across by `extract`. -/
structure WindowData where
  physical_width : Nat
  physical_height : Nat
  alpha_mode : CompositeAlphaMode
  present_mode : PresentMode
  deriving DecidableEq, Repr

/-- Texture usage bits; the source sets exactly `RENDER_ATTACHMENT`
(`bad_render.rs` line 115). -/
inductive TextureUsages
  | RENDER_ATTACHMENT
  deriving DecidableEq, Repr

/-- Embedding of `wgpu::SurfaceConfiguration` as built in
`bad_render.rs` lines 111-135. -/
structure SurfaceConfiguration where
  format : TextureFormat
  width : Nat
  height : Nat
  usage : TextureUsages
  present_mode : WgpuPresentMode
  alpha_mode : WgpuCompositeAlphaMode
  view_formats : List TextureFormat
  deriving DecidableEq, Repr

/-- The `wgpu::SurfaceError` variants matched in `reconfigure_surface`. -/
inductive SurfaceError
  | Timeout
  | Outdated
  | Lost
  | OutOfMemory
  deriving DecidableEq, Repr

/-- Result of one `surface.get_current_texture()` call: a frame (identified
by a number) or an error. Supplied as an oracle input to the embedding. -/
inductive AcquireResult
  | ok (frame : Nat)
  | err (e : SurfaceError)
  deriving DecidableEq, Repr

/-- Oracle building block: first acquisition answers `a`, every later one
answers `b`. -/
def acq2 (a b : AcquireResult) : Nat → AcquireResult
  | 0 => a
  | _ + 1 => b

/-- Embedding of Rust `str::starts_with`: the pattern's characters are a
prefix of the string's characters. -/
def str_starts_with (s pat : String) : Bool :=
  pat.data.isPrefixOf s.data

/-- Compile-time and runtime platform facts consulted by
`reconfigure_surface`: the `#[cfg(target_os = "linux")]` switch and the
names reported by `enumerate_adapters(wgpu::Backends::VULKAN)`
(`bad_render.rs` lines 187-195). -/
structure Platform where
  is_linux : Bool
  vulkan_adapter_names : List String
  deriving DecidableEq, Repr

namespace BadRender

/-- The loop condition of `bad_render.rs` lines 104-105: the format is one of
the two sRGB formats usable for surfaces. -/
def is_srgb_surface_format (f : TextureFormat) : Bool :=
  f == TextureFormat.Rgba8UnormSrgb || f == TextureFormat.Bgra8UnormSrgb

/-- The format-selection code of `configure_surface`, `bad_render.rs` lines
96-110: `formats.get(0).expect("No supported formats for surface")` (modelled
as `none` on the empty set, since `expect` aborts), then a scan that replaces
the default with the first sRGB surface format and breaks. -/
def negotiate_format : List TextureFormat → Option TextureFormat
  | [] => none
  | f0 :: rest => some (((f0 :: rest).find? is_srgb_surface_format).getD f0)

/-- The `wgpu::SurfaceConfiguration` literal of `bad_render.rs` lines
111-135, as a function of the chosen format and the window snapshot. -/
def build_configuration (format : TextureFormat) (window : WindowData) :
    SurfaceConfiguration :=
  { format := format
    width := window.physical_width
    height := window.physical_height
    usage := TextureUsages.RENDER_ATTACHMENT
    present_mode := map_present_mode window.present_mode
    alpha_mode := map_alpha_mode window.alpha_mode
    view_formats :=
      if !format.is_srgb then [format.add_srgb_suffix] else [] }

/-- The `WebviewSurface` struct of `bad_render.rs` lines 47-51.  The native
`wgpu::Surface` handle is represented by a numeric identity `surface_id`;
the last-applied configuration is carried alongside (it is the value the
draft refers to as `surface_configuration` inside `reconfigure_surface`). -/
structure WebviewSurface where
  surface_id : Nat
  texture : Nat
  format : TextureFormat
  config : SurfaceConfiguration
  deriving DecidableEq, Repr

/-- Result of the initial `configure_surface` call: the built surface, or an
abort (`expect` panic) with its message. -/
inductive ConfigureOutcome
  | ok (s : WebviewSurface)
  | fatal (msg : String)
  deriving DecidableEq, Repr

/-- Instrumented result of `configure_surface`: outcome, the configurations
passed to `render_device.configure_surface`, and how many times
`get_current_texture` was called. -/
structure ConfigureResult where
  outcome : ConfigureOutcome
  configs_applied : List SurfaceConfiguration
  acquire_calls : Nat
  deriving Repr

/-- Embedding of `configure_surface`, `bad_render.rs` lines 89-172: negotiate
the format (aborting on an empty capability set), build the configuration,
apply it, then acquire the first texture, aborting on any acquisition error
(`.expect("Error configuring surface")`, line 169). -/
def configure_surface (caps_formats : List TextureFormat) (window : WindowData)
    (acquire : Nat → AcquireResult) (fresh_id : Nat) : ConfigureResult :=
  match negotiate_format caps_formats with
  | none =>
    { outcome := .fatal "No supported formats for surface"
      configs_applied := []
      acquire_calls := 0 }
  | some format =>
    let surface_configuration := build_configuration format window
    match acquire 0 with
    | .ok frame =>
      { outcome := .ok
          { surface_id := fresh_id
            texture := frame
            format := format
            config := surface_configuration }
        configs_applied := [surface_configuration]
        acquire_calls := 1 }
    | .err _ =>
      { outcome := .fatal "Error configuring surface"
        configs_applied := [surface_configuration]
        acquire_calls := 1 }

/-- The `may_erroneously_timeout` closure of `bad_render.rs` lines 188-195
(compiled only under `target_os = "linux"`): some enumerated Vulkan adapter
reports a name starting with AMD or Intel. -/
def may_erroneously_timeout (p : Platform) : Bool :=
  p.vulkan_adapter_names.any fun name =>
    str_starts_with name "AMD" || str_starts_with name "Intel"

/-- What one frame of the already-configured path does with the acquired
texture: present it, skip the frame, or abort the process. -/
inductive FrameOutcome
  | presented (frame : Nat)
  | skipped
  | fatal (msg : String)
  deriving DecidableEq, Repr

/-- Instrumented result of `reconfigure_surface`. -/
structure ReconfigureResult where
  outcome : FrameOutcome
  configs_applied : List SurfaceConfiguration
  acquire_calls : Nat
  deriving Repr

/-- Embedding of `reconfigure_surface`, `bad_render.rs` lines 173-221.  The
draft references a variable `surface_configuration` (the last-known
configuration built by `configure_surface`); it is passed here explicitly.
Match arms in source order: `Ok` presents; `Err(Outdated)` re-applies the
configuration and retries acquisition once, aborting if the retry fails
(`.expect("Error reconfiguring surface")`, line 207); `Err(Timeout)` guarded
by the linux cfg and `may_erroneously_timeout()` only traces and skips;
every other error (including a timeout failing the guard) panics. -/
def reconfigure_surface (p : Platform)
    (surface_configuration : SurfaceConfiguration) (window : WindowData)
    (acquire : Nat → AcquireResult) : ReconfigureResult :=
  match acquire 0 with
  | .ok frame =>
    { outcome := .presented frame, configs_applied := [], acquire_calls := 1 }
  | .err .Outdated =>
    match acquire 1 with
    | .ok frame =>
      { outcome := .presented frame
        configs_applied := [surface_configuration]
        acquire_calls := 2 }
    | .err _ =>
      { outcome := .fatal "Error reconfiguring surface"
        configs_applied := [surface_configuration]
        acquire_calls := 2 }
  | .err .Timeout =>
    if p.is_linux && may_erroneously_timeout p then
      { outcome := .skipped, configs_applied := [], acquire_calls := 1 }
    else
      { outcome := .fatal "Could not get swap chain texture, operation unrecoverable"
        configs_applied := []
        acquire_calls := 1 }
  | .err _ =>
    { outcome := .fatal "Could not get swap chain texture, operation unrecoverable"
      configs_applied := []
      acquire_calls := 1 }

/-- Effect of a frame outcome on the stored surface state: a presented frame
replaces the held swapchain texture (`set_swapchain_texture`); a skipped or
aborted frame leaves the state as it was. -/
def apply_outcome (wvs : WebviewSurface) : FrameOutcome → WebviewSurface
  | .presented frame => { wvs with texture := frame }
  | _ => wvs

/-- Instrumented result of one run of the `prepare_webview` system. -/
structure PrepareResult where
  state : Option WebviewSurface
  surfaces_created : Nat
  configs_applied : List SurfaceConfiguration
  outcome : Option FrameOutcome
  acquire_calls : Nat
  deriving Repr

/-- Embedding of `prepare_webview`, `bad_render.rs` lines 53-88, one run of
the system.  `webview` is the extracted snapshot resource (absent when no
handle or window was available), `webview_surface` the persistent `Local`
state.  With no snapshot the system returns immediately.  With state
present it calls `reconfigure_surface`; otherwise it creates one native
surface (counted) and calls `configure_surface`. -/
def prepare_webview (p : Platform) (caps_formats : List TextureFormat)
    (webview : Option WindowData) (webview_surface : Option WebviewSurface)
    (acquire : Nat → AcquireResult) (fresh_id : Nat) : PrepareResult :=
  match webview with
  | none =>
    { state := webview_surface
      surfaces_created := 0
      configs_applied := []
      outcome := none
      acquire_calls := 0 }
  | some window =>
    match webview_surface with
    | some wvs =>
      let r := reconfigure_surface p wvs.config window acquire
      { state := some (apply_outcome wvs r.outcome)
        surfaces_created := 0
        configs_applied := r.configs_applied
        outcome := some r.outcome
        acquire_calls := r.acquire_calls }
    | none =>
      let r := configure_surface caps_formats window acquire fresh_id
      match r.outcome with
      | .ok s =>
        { state := some s
          surfaces_created := 1
          configs_applied := r.configs_applied
          outcome := some (.presented s.texture)
          acquire_calls := r.acquire_calls }
      | .fatal msg =>
        { state := none
          surfaces_created := 1
          configs_applied := r.configs_applied
          outcome := some (.fatal msg)
          acquire_calls := r.acquire_calls }

end BadRender

namespace Render

/-- The `WebviewSurface` resource of `render.rs` lines 60-64: the acquired
surface texture (identified by a number) and a texture format. -/
structure WebviewSurface where
  texture : Nat
  format : TextureFormat
  deriving DecidableEq, Repr

/-- Texture view dimensions of `wgpu::TextureViewDimension`. -/
inductive TextureViewDimension
  | D1
  | D2
  | D2Array
  | Cube
  | CubeArray
  | D3
  deriving DecidableEq, Repr

/-- Embedding of `wgpu::TextureViewDescriptor` with the fields the claims
speak about: label, format, dimension, and the mip/array ranges. -/
structure TextureViewDescriptor where
  label : Option String
  format : Option TextureFormat
  dimension : Option TextureViewDimension
  base_mip_level : Nat
  mip_level_count : Option Nat
  base_array_layer : Nat
  array_layer_count : Option Nat
  deriving DecidableEq, Repr

/-- The `Default::default()` value of `wgpu::TextureViewDescriptor`: no
label, no format or dimension override, full default mip/array range. -/
def TextureViewDescriptor.default : TextureViewDescriptor :=
  { label := none
    format := none
    dimension := none
    base_mip_level := 0
    mip_level_count := none
    base_array_layer := 0
    array_layer_count := none }

/-- A created texture view: which texture it views, and the descriptor it
was created with. -/
structure TextureView where
  texture : Nat
  descr : TextureViewDescriptor
  deriving DecidableEq, Repr

/-- Embedding of `WebviewSurface::create_view`, `render.rs` lines 66-74:
one view over the held texture, with label, 2-D dimension and the stored
format set, every other descriptor field left at its default. -/
def WebviewSurface.create_view (s : WebviewSurface) : TextureView :=
  { texture := s.texture
    descr :=
      { TextureViewDescriptor.default with
        label := some "webview_texture_view"
        dimension := some TextureViewDimension.D2
        format := some s.format } }

/-- Embedding of `prepare_webview`, `render.rs` lines 77-93, one run of the
system.  When the extracted handle resource is present it unconditionally
creates a native surface (`create_surface`, the second component counts the
surfaces created by this call), acquires a texture with `.unwrap()`
(modelled as `none` on error, since `unwrap` aborts), and builds the
`WebviewSurface` resource with the hardcoded `Rgba8UnormSrgb` format. -/
def prepare_webview (webview : Option WindowData) (acquire0 : AcquireResult) :
    Option WebviewSurface × Nat :=
  match webview with
  | none => (none, 0)
  | some _ =>
    match acquire0 with
    | .ok frame =>
      (some { texture := frame, format := TextureFormat.Rgba8UnormSrgb }, 1)
    | .err _ => (none, 1)

/-- Count of native surfaces created by running the simple draft's
`prepare_webview` over a sequence of frames (snapshot resource and
acquisition result per frame). -/
def surfaces_created_over (frames : List (Option WindowData × AcquireResult)) : Nat :=
  (frames.map fun fr => (prepare_webview fr.1 fr.2).2).sum

/-- Load operation of a render-pass attachment (`wgpu::LoadOp`). -/
inductive LoadOp
  | Clear
  | Load
  deriving DecidableEq, Repr

/-- Embedding of `wgpu::Operations` for a color attachment. -/
structure Operations where
  load : LoadOp
  store : Bool
  deriving DecidableEq, Repr

/-- The `Operations::default()` value of wgpu 0.15: clear on load, store. -/
def Operations.default : Operations :=
  { load := LoadOp.Clear, store := true }

/-- The views bound as color attachments in `WebviewNode::run`: the
post-process source and destination of the `ViewTarget`, or a view created
over the webview surface texture. -/
inductive AttachmentView
  | post_process_source
  | post_process_destination
  | webview (v : TextureView)
  deriving DecidableEq, Repr

/-- Embedding of `RenderPassColorAttachment`. -/
structure RenderPassColorAttachment where
  view : AttachmentView
  resolve_target : Option AttachmentView
  ops : Operations
  deriving DecidableEq, Repr

/-- Embedding of `RenderPassDescriptor` with the fields `WebviewNode::run`
sets. -/
structure RenderPassDescriptor where
  label : Option String
  color_attachments : List (Option RenderPassColorAttachment)
  depth_stencil_attachment : Option Unit
  deriving DecidableEq, Repr

/-- Instrumented result of one run of `WebviewNode::run`: the texture views
it created and the render pass it began (none when it returned early). -/
structure RunResult where
  views_created : List TextureView
  pass : Option RenderPassDescriptor
  deriving DecidableEq, Repr

/-- Embedding of `WebviewNode::run`, `render.rs` lines 137-189.  Early
return when the `WebviewSurface` resource is absent or the pipeline is not
yet in the cache; otherwise exactly one view is created over the webview
texture and the pass is begun with three color attachments: the
post-process source with default operations, the post-process destination
and the webview view both with load = Load and store = true. -/
def WebviewNode_run (webview_texture : Option WebviewSurface)
    (pipeline_ready : Bool) : RunResult :=
  match webview_texture with
  | none => { views_created := [], pass := none }
  | some wt =>
    if pipeline_ready then
      let webview_view := wt.create_view
      { views_created := [webview_view]
        pass := some
          { label := some "webview_pass"
            color_attachments :=
              [ some { view := AttachmentView.post_process_source
                       resolve_target := none
                       ops := Operations.default }
              , some { view := AttachmentView.post_process_destination
                       resolve_target := none
                       ops := { load := LoadOp.Load, store := true } }
              , some { view := AttachmentView.webview webview_view
                       resolve_target := none
                       ops := { load := LoadOp.Load, store := true } } ]
            depth_stencil_attachment := none } }
    else { views_created := [], pass := none }

end Render

/-! Concrete inputs used by counterexamples and witnesses. -/

/-- An 800 by 600 snapshot (the end-to-end scenario of the specification). -/
def w800 : WindowData :=
  { physical_width := 800, physical_height := 600
    alpha_mode := CompositeAlphaMode.Opaque, present_mode := PresentMode.Fifo }

/-- The resized 1024 by 768 snapshot of the same scenario. -/
def w1024 : WindowData :=
  { physical_width := 1024, physical_height := 768
    alpha_mode := CompositeAlphaMode.Opaque, present_mode := PresentMode.Fifo }

/-- A zero-width snapshot, as produced by a minimized window. -/
def w0 : WindowData :=
  { physical_width := 0, physical_height := 600
    alpha_mode := CompositeAlphaMode.Opaque, present_mode := PresentMode.Fifo }

/-- The configuration built from the 800 by 600 snapshot with the
`Bgra8UnormSrgb` format. -/
def cfg800 : SurfaceConfiguration :=
  BadRender.build_configuration TextureFormat.Bgra8UnormSrgb w800

/-- A managed surface holding `cfg800` as last-applied configuration. -/
def wvs800 : BadRender.WebviewSurface :=
  { surface_id := 0, texture := 0, format := TextureFormat.Bgra8UnormSrgb
    config := cfg800 }

/-- A platform that is not Linux and reports no Vulkan adapters. -/
def no_platform : Platform :=
  { is_linux := false, vulkan_adapter_names := [] }

/-- A Linux platform whose Vulkan enumeration reports an AMD adapter. -/
def linux_amd : Platform :=
  { is_linux := true, vulkan_adapter_names := ["AMD Radeon RX 7800"] }

/-! Helper lemmas. -/

/-- A successful `List.find?` splits the list around the found element, with
the predicate failing on everything before it. -/
lemma find_first_split {α : Type} (p : α → Bool) :
    ∀ (l : List α) (a : α), l.find? p = some a →
      ∃ l1 l2, l = l1 ++ a :: l2 ∧ p a = true ∧ ∀ b ∈ l1, p b = false := by
  intro l
  induction l with
  | nil => intro a h; simp [List.find?] at h
  | cons x xs ih =>
    intro a h
    by_cases hx : p x = true
    · rw [List.find?_cons_of_pos _ hx] at h
      cases h
      exact ⟨[], xs, rfl, hx, by simp⟩
    · rw [List.find?_cons_of_neg _ hx] at h
      obtain ⟨l1, l2, rfl, hpa, hl1⟩ := ih a h
      refine ⟨x :: l1, l2, rfl, hpa, ?_⟩
      intro b hb
      rcases List.mem_cons.mp hb with rfl | hb
      · exact Bool.eq_false_iff.mpr hx
      · exact hl1 b hb

/-- The loop condition of the format scan, spelled out as the two named
formats. -/
lemma is_srgb_surface_format_iff (f : TextureFormat) :
    BadRender.is_srgb_surface_format f = true ↔
      (f = TextureFormat.Rgba8UnormSrgb ∨ f = TextureFormat.Bgra8UnormSrgb) := by
  cases f <;> simp [BadRender.is_srgb_surface_format]

/-- The vendor allow-list predicate, spelled out as an existential over the
enumerated adapter names. -/
lemma may_erroneously_timeout_iff (p : Platform) :
    BadRender.may_erroneously_timeout p = true ↔
      ∃ name ∈ p.vulkan_adapter_names,
        (str_starts_with name "AMD" = true ∨
          str_starts_with name "Intel" = true) := by
  simp [BadRender.may_erroneously_timeout, List.any_eq_true]

/-- Applying a frame outcome never changes which native surface is held. -/
lemma apply_outcome_surface_id (wvs : BadRender.WebviewSurface)
    (o : BadRender.FrameOutcome) :
    (BadRender.apply_outcome wvs o).surface_id = wvs.surface_id := by
  cases o <;> rfl

/-- A timeout on the first acquisition of the already-configured path is
either skipped or fatal, decided exactly by the linux allow-list guard. -/
lemma reconfigure_timeout_eq (p : Platform) (cfg : SurfaceConfiguration)
    (window : WindowData) (r : AcquireResult) :
    BadRender.reconfigure_surface p cfg window
        (acq2 (AcquireResult.err SurfaceError.Timeout) r) =
      if p.is_linux && BadRender.may_erroneously_timeout p then
        { outcome := BadRender.FrameOutcome.skipped
          configs_applied := [], acquire_calls := 1 }
      else
        { outcome := BadRender.FrameOutcome.fatal
            "Could not get swap chain texture, operation unrecoverable"
          configs_applied := [], acquire_calls := 1 } := rfl

/-! Claim theorems. -/

/-- C5: for every non-empty ordered capability set, the Format Negotiator
returns a member of that set; if the set contains `Rgba8UnormSrgb` or
`Bgra8UnormSrgb`, it returns the first such gamma-corrected format in set
order; otherwise it returns the first element of the set. -/
theorem negotiated_format_member_and_first_srgb (f0 : TextureFormat)
    (rest : List TextureFormat) :
    ∃ f, BadRender.negotiate_format (f0 :: rest) = some f ∧ f ∈ f0 :: rest ∧
      ((∃ g ∈ f0 :: rest,
          g = TextureFormat.Rgba8UnormSrgb ∨ g = TextureFormat.Bgra8UnormSrgb) →
        ∃ l1 l2, f0 :: rest = l1 ++ f :: l2 ∧
          (f = TextureFormat.Rgba8UnormSrgb ∨ f = TextureFormat.Bgra8UnormSrgb) ∧
          ∀ g ∈ l1,
            ¬(g = TextureFormat.Rgba8UnormSrgb ∨ g = TextureFormat.Bgra8UnormSrgb)) ∧
      ((∀ g ∈ f0 :: rest,
          ¬(g = TextureFormat.Rgba8UnormSrgb ∨ g = TextureFormat.Bgra8UnormSrgb)) →
        f = f0) := by
  cases h : (f0 :: rest).find? BadRender.is_srgb_surface_format with
  | none =>
    refine ⟨f0, ?_, List.mem_cons_self f0 rest, ?_, fun _ => rfl⟩
    · simp [BadRender.negotiate_format, h]
    · rintro ⟨g, hg, hpg⟩
      rw [List.find?_eq_none] at h
      exact ((h g hg) ((is_srgb_surface_format_iff g).mpr hpg)).elim
  | some f =>
    refine ⟨f, ?_, List.mem_of_find?_eq_some h, ?_, ?_⟩
    · simp [BadRender.negotiate_format, h]
    · intro _
      obtain ⟨l1, l2, hsplit, hpf, hl1⟩ :=
        find_first_split BadRender.is_srgb_surface_format (f0 :: rest) f h
      refine ⟨l1, l2, hsplit, (is_srgb_surface_format_iff f).mp hpf, ?_⟩
      intro g hg hcontra
      exact absurd ((is_srgb_surface_format_iff g).mpr hcontra)
        (by simp [hl1 g hg])
    · intro hall
      exact absurd ((is_srgb_surface_format_iff f).mp (List.find?_some h))
        (hall f (List.mem_of_find?_eq_some h))

/-- Witness for C5 at the capability set of the specification's end-to-end
scenario, `[Bgra8Unorm, Bgra8UnormSrgb]`. -/
theorem negotiated_format_member_witness :
    (BadRender.negotiate_format
        [TextureFormat.Bgra8Unorm, TextureFormat.Bgra8UnormSrgb]).isSome = true := by
  obtain ⟨f, hf, -, -, -⟩ :=
    negotiated_format_member_and_first_srgb TextureFormat.Bgra8Unorm
      [TextureFormat.Bgra8UnormSrgb]
  rw [hf]
  rfl

/-- C6: if the surface capability set is empty, format negotiation fails
fatally (surface creation is aborted: no configuration is ever applied and
the prepare step ends with the panic) rather than returning a fabricated
default format. -/
theorem empty_capability_set_fatal (window : WindowData)
    (acquire : Nat → AcquireResult) (fresh_id : Nat) (p : Platform) :
    BadRender.negotiate_format [] = none ∧
    BadRender.configure_surface [] window acquire fresh_id =
      { outcome := BadRender.ConfigureOutcome.fatal "No supported formats for surface"
        configs_applied := [], acquire_calls := 0 } ∧
    BadRender.prepare_webview p [] (some window) none acquire fresh_id =
      { state := none
        surfaces_created := 1
        configs_applied := []
        outcome := some (BadRender.FrameOutcome.fatal "No supported formats for surface")
        acquire_calls := 0 } :=
  ⟨rfl, rfl, rfl⟩

/-- C7: in the configuration produced by the Configuration Builder, the
view-formats list is empty iff the chosen format is already gamma-corrected;
otherwise it contains exactly one element, the sRGB-suffixed counterpart of
the chosen format. -/
theorem view_formats_iff_srgb (format : TextureFormat) (window : WindowData) :
    ((BadRender.build_configuration format window).view_formats = [] ↔
      format.is_srgb = true) ∧
    (format.is_srgb = false →
      (BadRender.build_configuration format window).view_formats =
        [format.add_srgb_suffix]) := by
  cases format <;>
    simp [BadRender.build_configuration, TextureFormat.is_srgb,
      TextureFormat.add_srgb_suffix]

/-- Witness for C7 at the linear format `Rgba8Unorm`: the view-formats list
is exactly its sRGB counterpart. -/
theorem view_formats_iff_srgb_witness :
    (BadRender.build_configuration TextureFormat.Rgba8Unorm w800).view_formats =
      [TextureFormat.Rgba8UnormSrgb] :=
  (view_formats_iff_srgb TextureFormat.Rgba8Unorm w800).2 rfl

/-- C2: when frame acquisition on an already-configured surface fails with
`Outdated`, the last-known surface configuration is re-applied exactly once
and acquisition is retried exactly once (two acquisition calls in total);
if the single retry fails for any reason, the outcome is fatal, with no
further retry and no further configuration. At the `prepare_webview` level
the configuration re-applied is exactly the one stored in the managed
surface. -/
theorem outdated_reconfigure_retry_once (p : Platform)
    (cfg : SurfaceConfiguration) (window : WindowData) (f : Nat)
    (e : SurfaceError) (wvs : BadRender.WebviewSurface)
    (caps : List TextureFormat) (fresh_id : Nat) :
    BadRender.reconfigure_surface p cfg window
        (acq2 (AcquireResult.err SurfaceError.Outdated) (AcquireResult.ok f)) =
      { outcome := BadRender.FrameOutcome.presented f
        configs_applied := [cfg], acquire_calls := 2 } ∧
    BadRender.reconfigure_surface p cfg window
        (acq2 (AcquireResult.err SurfaceError.Outdated) (AcquireResult.err e)) =
      { outcome := BadRender.FrameOutcome.fatal "Error reconfiguring surface"
        configs_applied := [cfg], acquire_calls := 2 } ∧
    (BadRender.prepare_webview p caps (some window) (some wvs)
        (acq2 (AcquireResult.err SurfaceError.Outdated) (AcquireResult.err e))
        fresh_id).configs_applied = [wvs.config] :=
  ⟨rfl, rfl, rfl⟩

/-- Witness for C2: a concrete Outdated failure followed by a successful
retry presents the retried frame after one re-application of `cfg800`. -/
theorem outdated_reconfigure_retry_once_witness :
    BadRender.reconfigure_surface no_platform cfg800 w800
        (acq2 (AcquireResult.err SurfaceError.Outdated) (AcquireResult.ok 3)) =
      { outcome := BadRender.FrameOutcome.presented 3
        configs_applied := [cfg800], acquire_calls := 2 } :=
  (outdated_reconfigure_retry_once no_platform cfg800 w800 3
    SurfaceError.Lost wvs800 [] 0).1

/-- C3: a Timeout during acquisition on an already-configured surface is
absorbed (frame skipped, state still holds the same configured surface, no
configuration re-applied, no crash) if and only if the platform is Linux and
some enumerated Vulkan adapter name starts with AMD or Intel; on any other
platform or with no matching adapter the outcome is fatal. -/
theorem timeout_skip_iff_linux_allowlist (p : Platform)
    (caps : List TextureFormat) (window : WindowData)
    (wvs : BadRender.WebviewSurface) (fresh_id : Nat) (r : AcquireResult) :
    ((BadRender.prepare_webview p caps (some window) (some wvs)
        (acq2 (AcquireResult.err SurfaceError.Timeout) r) fresh_id).outcome =
          some BadRender.FrameOutcome.skipped ↔
      (p.is_linux = true ∧ ∃ name ∈ p.vulkan_adapter_names,
        (str_starts_with name "AMD" = true ∨
          str_starts_with name "Intel" = true))) ∧
    ((BadRender.prepare_webview p caps (some window) (some wvs)
        (acq2 (AcquireResult.err SurfaceError.Timeout) r) fresh_id).outcome =
          some BadRender.FrameOutcome.skipped ∨
      (BadRender.prepare_webview p caps (some window) (some wvs)
        (acq2 (AcquireResult.err SurfaceError.Timeout) r) fresh_id).outcome =
          some (BadRender.FrameOutcome.fatal
            "Could not get swap chain texture, operation unrecoverable")) ∧
    (BadRender.prepare_webview p caps (some window) (some wvs)
        (acq2 (AcquireResult.err SurfaceError.Timeout) r) fresh_id).state =
      some wvs ∧
    (BadRender.prepare_webview p caps (some window) (some wvs)
        (acq2 (AcquireResult.err SurfaceError.Timeout) r) fresh_id).configs_applied =
      [] ∧
    (BadRender.prepare_webview p caps (some window) (some wvs)
        (acq2 (AcquireResult.err SurfaceError.Timeout) r) fresh_id).surfaces_created =
      0 := by
  have hpre : BadRender.prepare_webview p caps (some window) (some wvs)
      (acq2 (AcquireResult.err SurfaceError.Timeout) r) fresh_id =
      { state := some (BadRender.apply_outcome wvs
          (BadRender.reconfigure_surface p wvs.config window
            (acq2 (AcquireResult.err SurfaceError.Timeout) r)).outcome)
        surfaces_created := 0
        configs_applied := (BadRender.reconfigure_surface p wvs.config window
          (acq2 (AcquireResult.err SurfaceError.Timeout) r)).configs_applied
        outcome := some (BadRender.reconfigure_surface p wvs.config window
          (acq2 (AcquireResult.err SurfaceError.Timeout) r)).outcome
        acquire_calls := (BadRender.reconfigure_surface p wvs.config window
          (acq2 (AcquireResult.err SurfaceError.Timeout) r)).acquire_calls } := rfl
  rw [hpre, reconfigure_timeout_eq]
  by_cases hg : (p.is_linux && BadRender.may_erroneously_timeout p) = true
  · rw [if_pos hg]
    rcases Bool.and_eq_true _ _ |>.mp hg with ⟨hl, hm⟩
    exact ⟨iff_of_true rfl ⟨hl, (may_erroneously_timeout_iff p).mp hm⟩,
      Or.inl rfl, rfl, rfl, rfl⟩
  · rw [if_neg hg]
    refine ⟨?_, Or.inr rfl, rfl, rfl, rfl⟩
    refine iff_of_false (by simp) ?_
    rintro ⟨hl, hname⟩
    exact hg (Bool.and_eq_true _ _ |>.mpr
      ⟨hl, (may_erroneously_timeout_iff p).mpr hname⟩)

/-- Witness for C3: on the Linux-AMD platform a simulated Timeout is
skipped. -/
theorem timeout_skip_iff_linux_allowlist_witness :
    (BadRender.prepare_webview linux_amd [TextureFormat.Bgra8UnormSrgb]
        (some w800) (some wvs800)
        (acq2 (AcquireResult.err SurfaceError.Timeout) (AcquireResult.ok 3))
        9).outcome = some BadRender.FrameOutcome.skipped :=
  (timeout_skip_iff_linux_allowlist linux_amd [TextureFormat.Bgra8UnormSrgb]
      w800 wvs800 9 (AcquireResult.ok 3)).1.mpr
    ⟨rfl, "AMD Radeon RX 7800", by simp [linux_amd], Or.inl (by decide)⟩
/-- C10: on the initial-creation path, any failure of the first texture
acquisition immediately after applying the configuration is fatal, with no
retry (exactly one acquisition call) — while on the already-configured path
of `reconfigure_surface` the Outdated retry and the recognized Linux
driver-timeout skip do recover. -/
theorem initial_acquisition_failure_fatal (f0 : TextureFormat)
    (rest : List TextureFormat) (window : WindowData) (e : SurfaceError)
    (fresh_id : Nat) (p : Platform) (cfg : SurfaceConfiguration) (f : Nat) :
    (BadRender.configure_surface (f0 :: rest) window
        (fun _ => AcquireResult.err e) fresh_id).outcome =
      BadRender.ConfigureOutcome.fatal "Error configuring surface" ∧
    (BadRender.configure_surface (f0 :: rest) window
        (fun _ => AcquireResult.err e) fresh_id).acquire_calls = 1 ∧
    (BadRender.prepare_webview p (f0 :: rest) (some window) none
        (fun _ => AcquireResult.err e) fresh_id).outcome =
      some (BadRender.FrameOutcome.fatal "Error configuring surface") ∧
    (BadRender.reconfigure_surface p cfg window
        (acq2 (AcquireResult.err SurfaceError.Outdated)
          (AcquireResult.ok f))).outcome = BadRender.FrameOutcome.presented f ∧
    (BadRender.reconfigure_surface linux_amd cfg window
        (acq2 (AcquireResult.err SurfaceError.Timeout)
          (AcquireResult.ok f))).outcome = BadRender.FrameOutcome.skipped :=
  ⟨rfl, rfl, rfl, rfl, rfl⟩

/-- C1 counterexample: in the simplified draft (`render.rs`) a new native
surface is created on every frame where a snapshot is present — two
consecutive frames create two surfaces, so a surface is created again after
the first frame, against the claim. -/
theorem simple_draft_recreates_surface_each_frame :
    Render.surfaces_created_over
        [(some w800, AcquireResult.ok 0), (some w800, AcquireResult.ok 1)] = 2 ∧
    (Render.prepare_webview (some w800) (AcquireResult.ok 1)).2 = 1 :=
  ⟨rfl, rfl⟩

/-- C1 amended: in the stateful draft (`bad_render.rs`) the surface is
created lazily exactly once — a frame with snapshot but no stored surface
creates one, a frame without a snapshot creates none and changes nothing,
and a frame with a stored surface creates none and keeps the same native
surface — while the simplified draft (`render.rs`) creates one native
surface on every frame with a snapshot present. -/
theorem surface_created_once_in_stateful_draft (p : Platform)
    (caps : List TextureFormat) (window : WindowData)
    (wvs : BadRender.WebviewSurface) (acquire : Nat → AcquireResult)
    (fresh_id : Nat) (st : Option BadRender.WebviewSurface)
    (r0 : AcquireResult) :
    (BadRender.prepare_webview p caps (some window) none acquire
        fresh_id).surfaces_created = 1 ∧
    BadRender.prepare_webview p caps none st acquire fresh_id =
      { state := st, surfaces_created := 0, configs_applied := []
        outcome := none, acquire_calls := 0 } ∧
    (BadRender.prepare_webview p caps (some window) (some wvs) acquire
        fresh_id).surfaces_created = 0 ∧
    ((BadRender.prepare_webview p caps (some window) (some wvs) acquire
        fresh_id).state).map BadRender.WebviewSurface.surface_id =
      some wvs.surface_id ∧
    (Render.prepare_webview (some window) r0).2 = 1 := by
  refine ⟨?_, rfl, rfl, ?_, ?_⟩
  · cases caps with
    | nil => rfl
    | cons f0 rest =>
      cases h : acquire 0 <;>
        simp [BadRender.prepare_webview, BadRender.configure_surface,
          BadRender.negotiate_format, h]
  · simp [BadRender.prepare_webview, Option.map, apply_outcome_surface_id]
  · cases r0 <;> rfl

/-- Witness for C1 (amended): a concrete frame with a stored surface
creates no new native surface. -/
theorem surface_created_once_in_stateful_draft_witness :
    (BadRender.prepare_webview no_platform [TextureFormat.Bgra8UnormSrgb]
        (some w800) (some wvs800) (acq2 (AcquireResult.ok 0) (AcquireResult.ok 0))
        3).surfaces_created = 0 :=
  (surface_created_once_in_stateful_draft no_platform
      [TextureFormat.Bgra8UnormSrgb] w800 wvs800
      (acq2 (AcquireResult.ok 0) (AcquireResult.ok 0)) 3 none
      (AcquireResult.ok 0)).2.2.1

/-- C4: the code performs no snapshot-difference reconfiguration.  With a
configured surface whose last-applied configuration was built from the
800 by 600 snapshot, a frame carrying the 1024 by 768 snapshot and a
successful acquisition applies no configuration at all, and the stored
configuration still has width 800 — against the claim (and against the
source's own commented-out size-changed condition, `bad_render.rs` lines
197-198), which requires exactly one reconfiguration. -/
theorem resize_triggers_no_reconfiguration :
    (BadRender.prepare_webview no_platform [TextureFormat.Bgra8UnormSrgb]
        (some w1024) (some wvs800) (acq2 (AcquireResult.ok 1) (AcquireResult.ok 1))
        5).configs_applied = [] ∧
    (BadRender.prepare_webview no_platform [TextureFormat.Bgra8UnormSrgb]
        (some w1024) (some wvs800) (acq2 (AcquireResult.ok 1) (AcquireResult.ok 1))
        5).state = some { wvs800 with texture := 1 } ∧
    wvs800.config.width = 800 ∧
    w1024.physical_width = 1024 :=
  ⟨rfl, rfl, rfl, rfl⟩

/-- C8 counterexample: a zero-width snapshot is not suppressed — on the
creation path the Configuration Builder runs and a configuration with
width 0 is applied to the device. -/
theorem zero_width_reaches_builder :
    (BadRender.prepare_webview no_platform [TextureFormat.Bgra8UnormSrgb]
        (some w0) none (acq2 (AcquireResult.ok 0) (AcquireResult.ok 0))
        1).configs_applied =
      [BadRender.build_configuration TextureFormat.Bgra8UnormSrgb w0] ∧
    (BadRender.build_configuration TextureFormat.Bgra8UnormSrgb w0).width = 0 ∧
    w0.physical_width = 0 :=
  ⟨rfl, rfl, rfl⟩

/-- C8 amended: neither `prepare_webview` nor `configure_surface` checks the
snapshot's dimensions — on every creation-path frame with a non-empty
capability set, exactly one configuration is built and applied and its
width is the snapshot's width verbatim, including zero. -/
theorem configuration_never_suppressed (p : Platform) (f0 : TextureFormat)
    (rest : List TextureFormat) (window : WindowData)
    (acquire : Nat → AcquireResult) (fresh_id : Nat) :
    (BadRender.prepare_webview p (f0 :: rest) (some window) none acquire
        fresh_id).configs_applied.map SurfaceConfiguration.width =
      [window.physical_width] := by
  cases h : acquire 0 <;>
    simp [BadRender.prepare_webview, BadRender.configure_surface,
      BadRender.negotiate_format, BadRender.build_configuration, h]

/-- Witness for C8 (amended): at the zero-width snapshot the applied
configuration's width is 0. -/
theorem configuration_never_suppressed_witness :
    (BadRender.prepare_webview no_platform [TextureFormat.Bgra8UnormSrgb]
        (some w0) none (acq2 (AcquireResult.ok 0) (AcquireResult.ok 0))
        1).configs_applied.map SurfaceConfiguration.width = [0] :=
  configuration_never_suppressed no_platform TextureFormat.Bgra8UnormSrgb []
    w0 (acq2 (AcquireResult.ok 0) (AcquireResult.ok 0)) 1

/-- C9: `WebviewNode::run` creates exactly one view over the acquired
webview texture — 2-D dimension, the stored format, default mip/array
range — and the render pass binds exactly one color attachment over that
view, with load = Load (existing contents kept, never cleared) and
store = true. -/
theorem webview_attachment_load_preserves_contents
    (wt : Render.WebviewSurface) :
    (Render.WebviewNode_run (some wt) true).views_created =
      [wt.create_view] ∧
    wt.create_view.texture = wt.texture ∧
    wt.create_view.descr.dimension = some Render.TextureViewDimension.D2 ∧
    wt.create_view.descr.format = some wt.format ∧
    wt.create_view.descr.base_mip_level = 0 ∧
    wt.create_view.descr.mip_level_count = none ∧
    wt.create_view.descr.base_array_layer = 0 ∧
    wt.create_view.descr.array_layer_count = none ∧
    ∃ d, (Render.WebviewNode_run (some wt) true).pass = some d ∧
      ∃ pre post,
        d.color_attachments = pre ++
          (some { view := Render.AttachmentView.webview wt.create_view
                  resolve_target := none
                  ops := { load := Render.LoadOp.Load, store := true } }) :: post ∧
        (∀ o ∈ pre, ∀ a, o = some a →
          ∀ v, a.view ≠ Render.AttachmentView.webview v) ∧
        (∀ o ∈ post, ∀ a, o = some a →
          ∀ v, a.view ≠ Render.AttachmentView.webview v) := by
  refine ⟨rfl, rfl, rfl, rfl, rfl, rfl, rfl, rfl, ?_⟩
  refine ⟨_, rfl,
    [ some { view := Render.AttachmentView.post_process_source
             resolve_target := none
             ops := Render.Operations.default }
    , some { view := Render.AttachmentView.post_process_destination
             resolve_target := none
             ops := { load := Render.LoadOp.Load, store := true } } ],
    [], rfl, ?_, by simp⟩
  intro o ho a ha v
  rcases List.mem_cons.mp ho with rfl | ho
  · cases ha
    simp
  · rcases List.mem_cons.mp ho with rfl | ho
    · cases ha
      simp
    · simp at ho

/-- Witness for C9 at a concrete webview surface. -/
theorem webview_attachment_load_witness :
    (Render.WebviewNode_run
        (some { texture := 7, format := TextureFormat.Rgba8UnormSrgb })
        true).views_created =
      [Render.WebviewSurface.create_view
        { texture := 7, format := TextureFormat.Rgba8UnormSrgb }] :=
  (webview_attachment_load_preserves_contents
    { texture := 7, format := TextureFormat.Rgba8UnormSrgb }).1
